import Mathlib

/-!
Verification of the local-port module (net/port.go).

The module has three parts:
* a descriptor type (LocalPort) with a validating constructor (NewLocalPort),
* a canonical string rendering (the Go method String on LocalPort),
* a port opener (openLocalPort) dispatching on the protocol.

The constructor validates against the Go standard library functions
net.ParseIP and IP.To4; those are modelled here byte-for-byte from the
standard library (the netip-based parser used by net.ParseIP since Go 1.17:
IPv4 dotted-quad with leading-zero rejection, IPv6 colon form with an
optional embedded IPv4 tail, zones rejected).  An IP address is a list of
16 byte values, exactly as net.ParseIP returns a 16-byte slice for both
families (IPv4 results are in IPv4-in-IPv6 mapped form).
-/

/-- Decimal digit value of a character, none for a non-digit. -/
def decVal (c : Char) : Option Nat :=
  if '0' ≤ c ∧ c ≤ '9' then some (c.toNat - '0'.toNat) else none

/-- Hexadecimal digit value of a character, none for a non-hex-digit. -/
def hexVal (c : Char) : Option Nat :=
  if '0' ≤ c ∧ c ≤ '9' then some (c.toNat - '0'.toNat)
  else if 'a' ≤ c ∧ c ≤ 'f' then some (c.toNat - 'a'.toNat + 10)
  else if 'A' ≤ c ∧ c ≤ 'F' then some (c.toNat - 'A'.toNat + 10)
  else none

/-- One pass of the Go netip parseIPv4 loop.  State: remaining characters,
current field value, number of digits seen in the current field, fields
already completed.  Mirrors the checks of the Go loop: leading zero in a
field, field value above 255, a dot ending an empty field, more than four
fields, a character that is neither digit nor dot.  At the end of the
string the last field must be non-empty and exactly three dots must have
been seen. -/
def parseIPv4Aux : List Char → Nat → Nat → List Nat → Option (List Nat)
  | [], val, digLen, fields =>
      if digLen = 0 then none
      else if fields.length < 3 then none
      else some (fields ++ [val])
  | c :: rest, val, digLen, fields =>
      match decVal c with
      | some d =>
          if digLen = 1 ∧ val = 0 then none
          else
            let val1 := val * 10 + d
            if val1 > 255 then none
            else parseIPv4Aux rest val1 (digLen + 1) fields
      | none =>
          if c = '.' then
            if digLen = 0 then none
            else if fields.length = 3 then none
            else parseIPv4Aux rest 0 0 (fields ++ [val])
          else none

/-- Model of the Go netip parseIPv4: four decimal fields 0..255 separated
by dots, no leading zeros, nothing else in the string.  Returns the four
byte values. -/
def parseIPv4 (s : List Char) : Option (List Nat) :=
  parseIPv4Aux s 0 0 []

/-- The inner hex-group loop of the Go netip parseIPv6: consume hex digits
accumulating a value.  After consuming the digit at index off the Go loop
fails if off exceeds 3 (a group may have at most 4 digits, so zero-padded
groups such as 00001 are rejected) and then if the accumulator exceeds
0xFFFF (unreachable given the digit cap, but present in the source).
Returns the accumulated value, the number of digits consumed, and the
rest of the string. -/
def readHexGroup : List Char → Nat → Nat → Option (Nat × Nat × List Char)
  | [], acc, off => some (acc, off, [])
  | c :: rest, acc, off =>
      match hexVal c with
      | none => some (acc, off, c :: rest)
      | some d =>
          let acc1 := acc * 16 + d
          if off > 3 then none
          else if acc1 > 0xFFFF then none
          else readHexGroup rest acc1 (off + 1)

/-- The main loop of the Go netip parseIPv6.  State: fuel (the loop runs
while fewer than 16 bytes are filled and each iteration fills at least two,
so eight iterations always suffice), remaining characters, bytes filled so
far, position of the ellipsis if one was seen.  Returns the state at loop
exit: bytes filled, unconsumed characters, ellipsis position. -/
def parseIPv6Loop (fuel : Nat) (s : List Char) (bytes : List Nat) (ellipsis : Option Nat) :
    Option (List Nat × List Char × Option Nat) :=
  if 16 ≤ bytes.length then some (bytes, s, ellipsis)
  else
    match fuel with
    | 0 => none
    | fuel + 1 =>
      match readHexGroup s 0 0 with
      | none => none
      | some (acc, off, rest) =>
        if off = 0 then none
        else if rest.head? = some '.' then
          -- an embedded IPv4 tail; it must replace the final two groups
          if ellipsis.isNone ∧ bytes.length ≠ 12 then none
          else if bytes.length + 4 > 16 then none
          else
            match parseIPv4 s with
            | none => none
            | some fields => some (bytes ++ fields, [], ellipsis)
        else
          let bytes1 := bytes ++ [acc / 256, acc % 256]
          match rest with
          | [] => some (bytes1, [], ellipsis)
          | c :: rest1 =>
            if c ≠ ':' then none
            else
              match rest1 with
              | [] => none
              | c1 :: rest2 =>
                if c1 = ':' then
                  if ellipsis.isSome then none
                  else
                    match rest2 with
                    | [] => some (bytes1, [], some bytes1.length)
                    | _ => parseIPv6Loop fuel rest2 bytes1 (some bytes1.length)
                else parseIPv6Loop fuel rest1 bytes1 ellipsis

/-- The checks after the Go parseIPv6 loop: the whole string must be
consumed; fewer than 16 bytes requires an ellipsis, whose expansion
inserts the missing zeros at its position; exactly 16 bytes forbids an
ellipsis (it must stand for at least one zero group). -/
def parseIPv6Finish : Option (List Nat × List Char × Option Nat) → Option (List Nat)
  | none => none
  | some (bytes, s1, ellipsis) =>
      if s1 ≠ [] then none
      else if bytes.length < 16 then
        match ellipsis with
        | none => none
        | some e => some (bytes.take e ++ List.replicate (16 - bytes.length) 0 ++ bytes.drop e)
      else if ellipsis.isSome then none
      else some bytes

/-- Model of the Go netip parseIPv6 (as consumed by net.ParseIP, so without
zone support): optional leading double colon, hex groups separated by
colons, at most one double colon expanding to the missing zero bytes, an
optional embedded IPv4 address as the tail.  Returns 16 byte values. -/
def parseIPv6 (s : List Char) : Option (List Nat) :=
  match s with
  | ':' :: ':' :: rest =>
      if rest = [] then some (List.replicate 16 0)
      else parseIPv6Finish (parseIPv6Loop 8 rest [] (some 0))
  | _ => parseIPv6Finish (parseIPv6Loop 8 s [] none)

/-- The 16-byte IPv4-in-IPv6 mapped form of four IPv4 bytes, as built by
the Go function IPv4 / netip As16 for an IPv4 address. -/
def v4InV6 (fields : List Nat) : List Nat :=
  [0, 0, 0, 0, 0, 0, 0, 0, 0, 0, 0xFF, 0xFF] ++ fields

/-- The dispatch scan of net.ParseIP / netip.ParseAddr: the first dot,
colon or percent sign decides the branch.  Percent introduces a zone,
which net.ParseIP rejects (it fails on every input containing a percent
sign), so the percent branch fails here. -/
inductive IPKind where
  | v4
  | v6
deriving Repr, DecidableEq

/-- Scan for the first character deciding the address kind. -/
def dispatchIPKind : List Char → Option IPKind
  | [] => none
  | c :: rest =>
      if c = '.' then some IPKind.v4
      else if c = ':' then some IPKind.v6
      else if c = '%' then none
      else dispatchIPKind rest

/-- Model of the Go standard library net.ParseIP: dispatch on the first
dot or colon, parse accordingly, and return the 16-byte form (IPv4
results in mapped form).  Inputs with a zone (a percent sign) are
rejected, as net.ParseIP does since Go 1.17. -/
def ParseIP (s : String) : Option (List Nat) :=
  if s.data.contains '%' then none
  else
    match dispatchIPKind s.data with
    | some IPKind.v4 => (parseIPv4 s.data).map v4InV6
    | some IPKind.v6 => parseIPv6 s.data
    | none => none

/-- Model of the Go method IP.To4: a 4-byte address is returned as is; a
16-byte address is returned as its last four bytes when it has the
IPv4-in-IPv6 mapped prefix (ten zero bytes then 0xFF 0xFF); anything else
gives nil. -/
def to4 (p : List Nat) : Option (List Nat) :=
  if p.length = 4 then some p
  else if p.length = 16 ∧ (p.take 10).all (fun b => b = 0)
       ∧ p.getD 10 0 = 0xFF ∧ p.getD 11 0 = 0xFF then
    some (p.drop 12)
  else none

/-- IPFamily refers to a specific family if not empty, i.e. "4" or "6"
(a string type in the source). -/
abbrev IPFamily := String

/-- The constant IPv4 of the source. -/
def IPv4 : IPFamily := "4"

/-- The constant IPv6 of the source. -/
def IPv6 : IPFamily := "6"

/-- LocalPort represents an IP address and port pair along with a protocol
and potentially a specific IP family, exactly the struct of the source.
The Go int port is modelled as an unbounded integer; the constructor never
inspects it. -/
structure LocalPort where
  Description : String
  IP : String
  IPFamily : IPFamily
  Port : Int
  Protocol : String
deriving Repr, DecidableEq

/-- The errors NewLocalPort and openLocalPort can produce, tagged with the
offending values exactly as the fmt.Errorf calls of the source embed them. -/
inductive PortError where
  | unsupportedProtocol (protocol : String)
  | invalidAddressFamily (family : String)
  | invalidAddress (ip : String)
  | addressFamilyMismatch (ip : String) (family : String)
deriving Repr, DecidableEq

/-- The error message texts of the fmt.Errorf calls in NewLocalPort. -/
def PortError.message : PortError → String
  | .unsupportedProtocol p => "Unsupported protocol " ++ p
  | .invalidAddressFamily f => "Invalid IP family " ++ f
  | .invalidAddress ip => "invalid ip address " ++ ip
  | .addressFamilyMismatch ip f => "ip address and family mismatch " ++ ip ++ ", " ++ f

/-- Model of NewLocalPort: returns a LocalPort instance and ensures
IPFamily and IP are consistent and that the given protocol is valid.  The
checks run in source order: protocol, then family tag, then (for a
non-empty address) IP parsing, then family consistency via To4. -/
def NewLocalPort (desc ip : String) (ipFamily : IPFamily) (port : Int) (protocol : String) :
    Except PortError LocalPort :=
  if protocol ≠ "tcp" ∧ protocol ≠ "sctp" ∧ protocol ≠ "udp" then
    Except.error (PortError.unsupportedProtocol protocol)
  else if ipFamily ≠ "" ∧ ipFamily ≠ "4" ∧ ipFamily ≠ "6" then
    Except.error (PortError.invalidAddressFamily ipFamily)
  else if ip ≠ "" then
    match ParseIP ip with
    | none => Except.error (PortError.invalidAddress ip)
    | some parsedIP =>
      if to4 parsedIP = none ∧ ipFamily = IPv4 ∨ to4 parsedIP ≠ none ∧ ipFamily = IPv6 then
        Except.error (PortError.addressFamilyMismatch ip ipFamily)
      else
        Except.ok ⟨desc, ip, ipFamily, port, protocol⟩
  else
    Except.ok ⟨desc, ip, ipFamily, port, protocol⟩

/-- Whether construction returned a descriptor (rather than an error). -/
def isOkB : Except PortError LocalPort → Bool
  | Except.ok _ => true
  | Except.error _ => false

/-- Model of strconv.Itoa on the Go int port (decimal, minus sign for
negative values), via the decimal printer of Int. -/
def itoa (n : Int) : String := toString n

/-- Model of net.JoinHostPort: a host containing a colon (an IPv6 literal)
is bracketed; the port is appended after a colon. -/
def joinHostPort (host port : String) : String :=
  if host.data.contains ':' then "[" ++ host ++ "]:" ++ port
  else host ++ ":" ++ port

/-- Lowercase hexadecimal digit for a value below 16. -/
def lowerHexDigit (n : Nat) : Char :=
  if n < 10 then Char.ofNat (48 + n) else Char.ofNat (87 + n)

/-- Quoting of one character under the Go verb %q (strconv.Quote): quote
and backslash are backslash-escaped, printable ASCII is kept, the seven
single-letter control escapes are used where they exist, other ASCII
control bytes become a lowercase hexadecimal escape.  Characters above
ASCII are kept verbatim, which models strconv.Quote on printable runes
(the only ones this module is exercised with). -/
def goQuoteChar (c : Char) : List Char :=
  if c = '"' ∨ c = '\\' then ['\\', c]
  else if 0x20 ≤ c.toNat ∧ c.toNat ≤ 0x7E then [c]
  else if c = '\x07' then ['\\', 'a']
  else if c = '\x08' then ['\\', 'b']
  else if c = '\x0C' then ['\\', 'f']
  else if c = '\n' then ['\\', 'n']
  else if c = '\r' then ['\\', 'r']
  else if c = '\t' then ['\\', 't']
  else if c = '\x0B' then ['\\', 'v']
  else if c.toNat < 0x80 then
    ['\\', 'x', lowerHexDigit (c.toNat / 16), lowerHexDigit (c.toNat % 16)]
  else [c]

/-- Model of the Go verb %q applied to a string: the quoted characters
wrapped in double quotes. -/
def goQuote (s : String) : String :=
  ⟨'"' :: (s.data.map goQuoteChar).flatten ++ ['"']⟩

/-- Model of the Go method String on LocalPort: the description under %q,
then the joined host and port, a slash, the protocol and the family tag,
parenthesized. -/
def LocalPort.render (lp : LocalPort) : String :=
  goQuote lp.Description ++ " (" ++ joinHostPort lp.IP (itoa lp.Port)
    ++ "/" ++ lp.Protocol ++ lp.IPFamily ++ ")"

/-- The outcome of openLocalPort up to the operating system: the tcp and
udp branches hand the computed network token and host-port string to an OS
call whose result they return verbatim; the sctp branch returns before any
OS call with a nil handle and a nil error; the default branch returns
before any OS call with a nil handle and an unknown-protocol error. -/
inductive OpenOutcome where
  | tcpListen (network hostPort : String)
  | udpListen (network hostPort : String)
  | sctpNoop
  | errUnknownProtocol (protocol : String)
deriving Repr, DecidableEq

/-- Model of openLocalPort: compute the network token (protocol with the
family tag appended) and the host-port string, then dispatch on the
protocol exactly as the switch of the source does. -/
def openLocalPort (lp : LocalPort) : OpenOutcome :=
  let network := lp.Protocol ++ lp.IPFamily
  let hostPort := joinHostPort lp.IP (itoa lp.Port)
  if lp.Protocol = "tcp" then OpenOutcome.tcpListen network hostPort
  else if lp.Protocol = "udp" then OpenOutcome.udpListen network hostPort
  else if lp.Protocol = "sctp" then OpenOutcome.sctpNoop
  else OpenOutcome.errUnknownProtocol lp.Protocol

/-- Whether an outcome of openLocalPort involves an OS-level bind, listen
or resolve call (only the tcp and udp branches do). -/
def OpenOutcome.performsOSCall : OpenOutcome → Bool
  | .tcpListen _ _ => true
  | .udpListen _ _ => true
  | .sctpNoop => false
  | .errUnknownProtocol _ => false

/-- The handle-and-error pair openLocalPort returns without consulting the
OS: the sctp branch returns a nil handle and a nil error, the default
branch a nil handle and the unknown-protocol message (the source quotes
the protocol under %q); the tcp and udp outcomes depend on the OS, so no
immediate result exists for them. -/
def OpenOutcome.immediateResult : OpenOutcome → Option (Option Unit × Option String)
  | .tcpListen _ _ => none
  | .udpListen _ _ => none
  | .sctpNoop => some (none, none)
  | .errUnknownProtocol p => some (none, some ("unknown protocol " ++ goQuote p))

/-! ## Shared lemmas about the constructor branches -/

/-- The protocol check of NewLocalPort does not fire for a supported protocol. -/
theorem protocolCheck_passes {protocol : String}
    (hp : protocol = "tcp" ∨ protocol = "udp" ∨ protocol = "sctp") :
    ¬(protocol ≠ "tcp" ∧ protocol ≠ "sctp" ∧ protocol ≠ "udp") := by
  rcases hp with h | h | h <;> subst h <;> simp

/-- The family check of NewLocalPort does not fire for a valid family tag. -/
theorem familyCheck_passes {ipFamily : IPFamily}
    (hf : ipFamily = "" ∨ ipFamily = "4" ∨ ipFamily = "6") :
    ¬(ipFamily ≠ "" ∧ ipFamily ≠ "4" ∧ ipFamily ≠ "6") := by
  rcases hf with h | h | h <;> subst h <;> simp

/-- Constructor outcome on the mismatch branch: valid protocol and family,
non-empty parsable address, family contradiction. -/
theorem newLocalPort_mismatch_branch (desc ip : String) (ipFamily : IPFamily)
    (port : Int) (protocol : String) (p : List Nat)
    (hprot : ¬(protocol ≠ "tcp" ∧ protocol ≠ "sctp" ∧ protocol ≠ "udp"))
    (hfam : ¬(ipFamily ≠ "" ∧ ipFamily ≠ "4" ∧ ipFamily ≠ "6"))
    (hip : ip ≠ "") (hP : ParseIP ip = some p)
    (hmis : to4 p = none ∧ ipFamily = IPv4 ∨ to4 p ≠ none ∧ ipFamily = IPv6) :
    NewLocalPort desc ip ipFamily port protocol
      = Except.error (PortError.addressFamilyMismatch ip ipFamily) := by
  unfold NewLocalPort
  rw [if_neg hprot, if_neg hfam, if_pos hip]
  simp only [hP]
  rw [if_pos hmis]

/-- Constructor outcome on the success branch for a parsable address:
valid protocol and family, no family contradiction. -/
theorem newLocalPort_ok_parsed_branch (desc ip : String) (ipFamily : IPFamily)
    (port : Int) (protocol : String) (p : List Nat)
    (hprot : ¬(protocol ≠ "tcp" ∧ protocol ≠ "sctp" ∧ protocol ≠ "udp"))
    (hfam : ¬(ipFamily ≠ "" ∧ ipFamily ≠ "4" ∧ ipFamily ≠ "6"))
    (hip : ip ≠ "") (hP : ParseIP ip = some p)
    (hmis : ¬(to4 p = none ∧ ipFamily = IPv4 ∨ to4 p ≠ none ∧ ipFamily = IPv6)) :
    NewLocalPort desc ip ipFamily port protocol
      = Except.ok ⟨desc, ip, ipFamily, port, protocol⟩ := by
  unfold NewLocalPort
  rw [if_neg hprot, if_neg hfam, if_pos hip]
  simp only [hP]
  rw [if_neg hmis]

/-- Constructor outcome on the success branch for an empty address. -/
theorem newLocalPort_ok_empty_branch (desc ip : String) (ipFamily : IPFamily)
    (port : Int) (protocol : String)
    (hprot : ¬(protocol ≠ "tcp" ∧ protocol ≠ "sctp" ∧ protocol ≠ "udp"))
    (hfam : ¬(ipFamily ≠ "" ∧ ipFamily ≠ "4" ∧ ipFamily ≠ "6"))
    (hip : ip = "") :
    NewLocalPort desc ip ipFamily port protocol
      = Except.ok ⟨desc, ip, ipFamily, port, protocol⟩ := by
  unfold NewLocalPort
  rw [if_neg hprot, if_neg hfam, if_neg (by simp [hip])]

/-- Constructor outcome on the parse-failure branch. -/
theorem newLocalPort_parse_failure_branch (desc ip : String) (ipFamily : IPFamily)
    (port : Int) (protocol : String)
    (hprot : ¬(protocol ≠ "tcp" ∧ protocol ≠ "sctp" ∧ protocol ≠ "udp"))
    (hfam : ¬(ipFamily ≠ "" ∧ ipFamily ≠ "4" ∧ ipFamily ≠ "6"))
    (hip : ip ≠ "") (hP : ParseIP ip = none) :
    NewLocalPort desc ip ipFamily port protocol
      = Except.error (PortError.invalidAddress ip) := by
  unfold NewLocalPort
  rw [if_neg hprot, if_neg hfam, if_pos hip]
  simp only [hP]

/-! ## The claims -/

/-- C3: for every protocol string that does not case-sensitively equal
tcp, udp or sctp, construction fails with an UnsupportedProtocol error
carrying the offending protocol string, regardless of the values of all
other fields (description, address, addressFamily, port). -/
theorem newLocalPort_unsupported_protocol (desc ip : String) (ipFamily : IPFamily)
    (port : Int) (protocol : String)
    (h1 : protocol ≠ "tcp") (h2 : protocol ≠ "udp") (h3 : protocol ≠ "sctp") :
    NewLocalPort desc ip ipFamily port protocol
      = Except.error (PortError.unsupportedProtocol protocol) := by
  unfold NewLocalPort
  rw [if_pos ⟨h1, h3, h2⟩]

/-- Witness for C3: the protocol http is rejected even with an invalid
family tag and an invalid address in the other fields. -/
theorem newLocalPort_unsupported_protocol_witness :
    NewLocalPort "d" "300" "5" (-7) "http"
      = Except.error (PortError.unsupportedProtocol "http") :=
  newLocalPort_unsupported_protocol "d" "300" "5" (-7) "http"
    (by decide) (by decide) (by decide)

/-- C4 counterexample: the claim asserts that an invalid family tag fails
with InvalidAddressFamily for every combination of the other fields,
including invalid protocol strings; but the protocol check runs first, so
an invalid protocol paired with an invalid family tag reports
UnsupportedProtocol instead. -/
theorem newLocalPort_invalid_family_counterexample :
    NewLocalPort "d" "" "5" 80 "http" = Except.error (PortError.unsupportedProtocol "http")
    ∧ NewLocalPort "d" "" "5" 80 "http" ≠ Except.error (PortError.invalidAddressFamily "5") := by
  constructor
  · rfl
  · intro h
    exact absurd (Except.error.inj h) (by decide)

/-- C4 (amended): for every family tag outside the empty, 4 and 6 tags,
and every supported protocol, construction fails with an
InvalidAddressFamily error, regardless of the other fields. -/
theorem newLocalPort_invalid_family (desc ip : String) (ipFamily : IPFamily)
    (port : Int) (protocol : String)
    (hp : protocol = "tcp" ∨ protocol = "udp" ∨ protocol = "sctp")
    (h1 : ipFamily ≠ "") (h2 : ipFamily ≠ "4") (h3 : ipFamily ≠ "6") :
    NewLocalPort desc ip ipFamily port protocol
      = Except.error (PortError.invalidAddressFamily ipFamily) := by
  unfold NewLocalPort
  rw [if_neg (protocolCheck_passes hp), if_pos ⟨h1, h2, h3⟩]

/-- Witness for the amended C4: the family tag 5 is rejected. -/
theorem newLocalPort_invalid_family_witness :
    NewLocalPort "d" "1.2.3.4" "5" 80 "tcp"
      = Except.error (PortError.invalidAddressFamily "5") :=
  newLocalPort_invalid_family "d" "1.2.3.4" "5" 80 "tcp"
    (Or.inl rfl) (by decide) (by decide) (by decide)

/-- C1: for every construction input where the address string is
non-empty, parses as an IP literal, and the parsed address is not
representable as IPv4 while the family tag is 4, or is representable as
IPv4 while the family tag is 6, construction fails with an
AddressFamilyMismatch error (given a supported protocol), and never
returns a descriptor. -/
theorem newLocalPort_family_mismatch (desc ip : String) (ipFamily : IPFamily)
    (port : Int) (protocol : String) (p : List Nat)
    (hp : protocol = "tcp" ∨ protocol = "udp" ∨ protocol = "sctp")
    (hip : ip ≠ "") (hP : ParseIP ip = some p)
    (hmis : to4 p = none ∧ ipFamily = IPv4 ∨ to4 p ≠ none ∧ ipFamily = IPv6) :
    NewLocalPort desc ip ipFamily port protocol
      = Except.error (PortError.addressFamilyMismatch ip ipFamily)
    ∧ ∀ lp : LocalPort, NewLocalPort desc ip ipFamily port protocol ≠ Except.ok lp := by
  have hfam : ¬(ipFamily ≠ "" ∧ ipFamily ≠ "4" ∧ ipFamily ≠ "6") := by
    rcases hmis with ⟨_, h⟩ | ⟨_, h⟩ <;> subst h <;> simp [IPv4, IPv6]
  have hmain := newLocalPort_mismatch_branch desc ip ipFamily port protocol p
    (protocolCheck_passes hp) hfam hip hP hmis
  refine ⟨hmain, fun lp h => ?_⟩
  rw [hmain] at h
  exact Except.noConfusion h

/-- Witness for C1: an IPv6 literal paired with the v4-only family tag is
rejected as a mismatch. -/
theorem newLocalPort_family_mismatch_witness :
    NewLocalPort "d" "2001:db8::1" "4" 80 "tcp"
      = Except.error (PortError.addressFamilyMismatch "2001:db8::1" "4") :=
  (newLocalPort_family_mismatch "d" "2001:db8::1" "4" 80 "tcp"
    [32, 1, 13, 184, 0, 0, 0, 0, 0, 0, 0, 0, 0, 0, 0, 1]
    (Or.inl rfl) (by decide) (by decide) (Or.inl ⟨by decide, rfl⟩)).1

/-- C2: for every descriptor whose protocol field is sctp, open always
succeeds, performs no OS-level bind or listen, and yields an absent
handle (so its release is a no-op), regardless of the address and port
values of the descriptor. -/
theorem openLocalPort_sctp_noop (lp : LocalPort) (h : lp.Protocol = "sctp") :
    openLocalPort lp = OpenOutcome.sctpNoop
    ∧ OpenOutcome.performsOSCall (openLocalPort lp) = false
    ∧ OpenOutcome.immediateResult (openLocalPort lp) = some (none, none) := by
  have hopen : openLocalPort lp = OpenOutcome.sctpNoop := by
    simp [openLocalPort, h]
  exact ⟨hopen, by rw [hopen]; rfl, by rw [hopen]; rfl⟩

/-- Witness for C2: an sctp descriptor with an out-of-range port and a
nonsense address still opens successfully with no OS call and no handle. -/
theorem openLocalPort_sctp_noop_witness :
    openLocalPort ⟨"d", "not an ip", "9", -1, "sctp"⟩ = OpenOutcome.sctpNoop :=
  (openLocalPort_sctp_noop ⟨"d", "not an ip", "9", -1, "sctp"⟩ rfl).1

/-- C8: for every descriptor whose protocol field is none of tcp, udp and
sctp (reachable only by bypassing construction), open fails with an
unknown-protocol error naming the offending protocol and returns no
handle, without any OS call. -/
theorem openLocalPort_unknown_protocol (lp : LocalPort)
    (h1 : lp.Protocol ≠ "tcp") (h2 : lp.Protocol ≠ "udp") (h3 : lp.Protocol ≠ "sctp") :
    openLocalPort lp = OpenOutcome.errUnknownProtocol lp.Protocol
    ∧ OpenOutcome.immediateResult (openLocalPort lp)
        = some (none, some ("unknown protocol " ++ goQuote lp.Protocol))
    ∧ OpenOutcome.performsOSCall (openLocalPort lp) = false := by
  have hopen : openLocalPort lp = OpenOutcome.errUnknownProtocol lp.Protocol := by
    simp only [openLocalPort]
    rw [if_neg h1, if_neg h2, if_neg h3]
  exact ⟨hopen, by rw [hopen]; rfl, by rw [hopen]; rfl⟩

/-- Witness for C8: opening a descriptor with protocol http fails with the
unknown-protocol error. -/
theorem openLocalPort_unknown_protocol_witness :
    openLocalPort ⟨"d", "", "", 80, "http"⟩ = OpenOutcome.errUnknownProtocol "http" :=
  (openLocalPort_unknown_protocol ⟨"d", "", "", 80, "http"⟩
    (by decide) (by decide) (by decide)).1

/-- C5: for every input with a supported protocol and a valid family tag
whose address string is non-empty and does not parse as an IP literal,
construction fails with an InvalidAddress error, and it fails with
InvalidAddress only in that case (raises-iff, including the identity of
the string the error carries). -/
theorem newLocalPort_invalid_address_iff (desc ip : String) (ipFamily : IPFamily)
    (port : Int) (protocol : String) (s : String) :
    NewLocalPort desc ip ipFamily port protocol = Except.error (PortError.invalidAddress s)
    ↔ s = ip ∧ (protocol = "tcp" ∨ protocol = "udp" ∨ protocol = "sctp")
        ∧ (ipFamily = "" ∨ ipFamily = "4" ∨ ipFamily = "6")
        ∧ ip ≠ "" ∧ ParseIP ip = none := by
  constructor
  · intro h
    unfold NewLocalPort at h
    by_cases hprot : protocol ≠ "tcp" ∧ protocol ≠ "sctp" ∧ protocol ≠ "udp"
    · rw [if_pos hprot] at h
      exact PortError.noConfusion (Except.error.inj h)
    · rw [if_neg hprot] at h
      by_cases hfam : ipFamily ≠ "" ∧ ipFamily ≠ "4" ∧ ipFamily ≠ "6"
      · rw [if_pos hfam] at h
        exact PortError.noConfusion (Except.error.inj h)
      · rw [if_neg hfam] at h
        by_cases hip : ip ≠ ""
        · rw [if_pos hip] at h
          cases hP : ParseIP ip with
          | none =>
            simp only [hP] at h
            refine ⟨(PortError.invalidAddress.inj (Except.error.inj h)).symm,
              ?_, ?_, hip, rfl⟩ <;> tauto
          | some p =>
            simp only [hP] at h
            by_cases hmis : to4 p = none ∧ ipFamily = IPv4 ∨ to4 p ≠ none ∧ ipFamily = IPv6
            · rw [if_pos hmis] at h
              exact PortError.noConfusion (Except.error.inj h)
            · rw [if_neg hmis] at h
              exact Except.noConfusion h
        · rw [if_neg hip] at h
          exact Except.noConfusion h
  · rintro ⟨hs, hp, hf, hip, hP⟩
    subst hs
    exact newLocalPort_parse_failure_branch desc s ipFamily port protocol
      (protocolCheck_passes hp) (familyCheck_passes hf) hip hP

/-- Witness for C5: the address 300 (from the repository test suite) fails
to parse and construction reports exactly InvalidAddress for it. -/
theorem newLocalPort_invalid_address_iff_witness :
    NewLocalPort "d" "300" "" 80 "tcp" = Except.error (PortError.invalidAddress "300") :=
  (newLocalPort_invalid_address_iff "d" "300" "" 80 "tcp" "300").mpr
    ⟨rfl, Or.inl rfl, Or.inl rfl, by decide, rfl⟩

/-- C6: for every input with a supported protocol, a valid family tag, and
an address that is empty or parses as an IP whose actual family matches
the requested family (or the family is unset), construction succeeds and
returns a descriptor whose fields equal the given inputs verbatim.  The
constructor is a pure function of its arguments (no I/O in the model, as
in the source). -/
theorem newLocalPort_success (desc ip : String) (ipFamily : IPFamily)
    (port : Int) (protocol : String)
    (hp : protocol = "tcp" ∨ protocol = "udp" ∨ protocol = "sctp")
    (hf : ipFamily = "" ∨ ipFamily = "4" ∨ ipFamily = "6")
    (hip : ip = "" ∨ ∃ p, ParseIP ip = some p ∧
      (ipFamily = "" ∨ ipFamily = "4" ∧ to4 p ≠ none ∨ ipFamily = "6" ∧ to4 p = none)) :
    NewLocalPort desc ip ipFamily port protocol
      = Except.ok ⟨desc, ip, ipFamily, port, protocol⟩ := by
  rcases hip with hip | ⟨p, hP, hmatch⟩
  · exact newLocalPort_ok_empty_branch desc ip ipFamily port protocol
      (protocolCheck_passes hp) (familyCheck_passes hf) hip
  · have hip2 : ip ≠ "" := by
      intro h
      rw [h, show ParseIP "" = none from rfl] at hP
      exact Option.noConfusion hP
    refine newLocalPort_ok_parsed_branch desc ip ipFamily port protocol p
      (protocolCheck_passes hp) (familyCheck_passes hf) hip2 hP ?_
    rcases hmatch with h | ⟨h, h2⟩ | ⟨h, h2⟩ <;> subst h <;>
      rintro (⟨a, b⟩ | ⟨a, b⟩) <;> simp_all [IPv4, IPv6]

/-- Witness for C6: an IPv4 literal with the matching v4 family tag
constructs the verbatim descriptor. -/
theorem newLocalPort_success_witness :
    NewLocalPort "d" "1.2.3.4" "4" 80 "tcp"
      = Except.ok ⟨"d", "1.2.3.4", "4", 80, "tcp"⟩ :=
  newLocalPort_success "d" "1.2.3.4" "4" 80 "tcp" (Or.inl rfl) (Or.inr (Or.inl rfl))
    (Or.inr ⟨[0, 0, 0, 0, 0, 0, 0, 0, 0, 0, 255, 255, 1, 2, 3, 4], rfl,
      Or.inr (Or.inl ⟨rfl, by decide⟩)⟩)

/-- Shape of the constructor result as a function of the port: for fixed
description, address, family and protocol, either every port yields one
fixed error, or every port yields the verbatim descriptor. -/
theorem newLocalPort_shape (desc ip : String) (ipFamily : IPFamily) (protocol : String) :
    (∃ e : PortError, ∀ port : Int,
        NewLocalPort desc ip ipFamily port protocol = Except.error e)
    ∨ (∀ port : Int, NewLocalPort desc ip ipFamily port protocol
        = Except.ok ⟨desc, ip, ipFamily, port, protocol⟩) := by
  by_cases hprot : protocol ≠ "tcp" ∧ protocol ≠ "sctp" ∧ protocol ≠ "udp"
  · exact Or.inl ⟨PortError.unsupportedProtocol protocol,
      fun port => by unfold NewLocalPort; rw [if_pos hprot]⟩
  · by_cases hfam : ipFamily ≠ "" ∧ ipFamily ≠ "4" ∧ ipFamily ≠ "6"
    · exact Or.inl ⟨PortError.invalidAddressFamily ipFamily,
        fun port => by unfold NewLocalPort; rw [if_neg hprot, if_pos hfam]⟩
    · by_cases hip : ip ≠ ""
      · cases hP : ParseIP ip with
        | none =>
          exact Or.inl ⟨PortError.invalidAddress ip, fun port =>
            newLocalPort_parse_failure_branch desc ip ipFamily port protocol
              hprot hfam hip hP⟩
        | some p =>
          by_cases hmis : to4 p = none ∧ ipFamily = IPv4 ∨ to4 p ≠ none ∧ ipFamily = IPv6
          · exact Or.inl ⟨PortError.addressFamilyMismatch ip ipFamily, fun port =>
              newLocalPort_mismatch_branch desc ip ipFamily port protocol p
                hprot hfam hip hP hmis⟩
          · exact Or.inr (fun port =>
              newLocalPort_ok_parsed_branch desc ip ipFamily port protocol p
                hprot hfam hip hP hmis)
      · exact Or.inr (fun port =>
          newLocalPort_ok_empty_branch desc ip ipFamily port protocol
            hprot hfam (not_not.mp hip))

/-- C9: construction never inspects the port argument: for any two port
values (including 0, negative values and values above 65535) the error
produced is the same, success is the same, and on success the descriptor
carries the given port verbatim. -/
theorem newLocalPort_port_independent (desc ip : String) (ipFamily : IPFamily)
    (protocol : String) (port1 port2 : Int) :
    (∀ e : PortError, NewLocalPort desc ip ipFamily port1 protocol = Except.error e
        ↔ NewLocalPort desc ip ipFamily port2 protocol = Except.error e)
    ∧ isOkB (NewLocalPort desc ip ipFamily port1 protocol)
        = isOkB (NewLocalPort desc ip ipFamily port2 protocol)
    ∧ (∀ lp : LocalPort, NewLocalPort desc ip ipFamily port1 protocol = Except.ok lp
        → lp.Port = port1) := by
  rcases newLocalPort_shape desc ip ipFamily protocol with ⟨e0, he⟩ | hok
  · refine ⟨fun e => by rw [he port1, he port2], by rw [he port1, he port2], fun lp h => ?_⟩
    rw [he port1] at h
    exact Except.noConfusion h
  · refine ⟨fun e => ?_, ?_, fun lp h => ?_⟩
    · rw [hok port1, hok port2]
      constructor <;> intro hh <;> exact Except.noConfusion hh
    · rw [hok port1, hok port2]
      rfl
    · rw [hok port1] at h
      cases Except.ok.inj h
      rfl

/-- Witness for C9: a negative port and a port far above 65535 agree on
construction success. -/
theorem newLocalPort_port_independent_witness :
    isOkB (NewLocalPort "d" "1.2.3.4" "" (-5) "tcp")
      = isOkB (NewLocalPort "d" "1.2.3.4" "" 700000 "tcp") :=
  (newLocalPort_port_independent "d" "1.2.3.4" "" "tcp" (-5) 700000).2.1

/-- C10: every address that parses to the IPv4-in-IPv6 mapped form (an
IPv4-mapped IPv6 literal such as two colons, ffff, then a dotted quad) is
classified as representable as IPv4: with family tag 6 construction fails
with the family-mismatch error, and with family tag 4 or the unset family
it succeeds. -/
theorem newLocalPort_v4mapped (desc ip : String) (port : Int) (protocol : String)
    (p : List Nat)
    (hp : protocol = "tcp" ∨ protocol = "udp" ∨ protocol = "sctp")
    (hip : ip ≠ "") (hP : ParseIP ip = some p)
    (hlen : p.length = 16)
    (hz : (p.take 10).all (fun b => b = 0) = true)
    (h10 : p.getD 10 0 = 0xFF) (h11 : p.getD 11 0 = 0xFF) :
    NewLocalPort desc ip "6" port protocol
      = Except.error (PortError.addressFamilyMismatch ip "6")
    ∧ NewLocalPort desc ip "4" port protocol = Except.ok ⟨desc, ip, "4", port, protocol⟩
    ∧ NewLocalPort desc ip "" port protocol = Except.ok ⟨desc, ip, "", port, protocol⟩ := by
  have h4 : to4 p ≠ none := by
    unfold to4
    by_cases hl : p.length = 4
    · rw [if_pos hl]
      exact fun hh => Option.noConfusion hh
    · rw [if_neg hl, if_pos ⟨hlen, hz, h10, h11⟩]
      exact fun hh => Option.noConfusion hh
  refine ⟨?_, ?_, ?_⟩
  · exact newLocalPort_mismatch_branch desc ip "6" port protocol p
      (protocolCheck_passes hp) (familyCheck_passes (Or.inr (Or.inr rfl))) hip hP
      (Or.inr ⟨h4, rfl⟩)
  · refine newLocalPort_ok_parsed_branch desc ip "4" port protocol p
      (protocolCheck_passes hp) (familyCheck_passes (Or.inr (Or.inl rfl))) hip hP ?_
    rintro (⟨a, b⟩ | ⟨a, b⟩)
    · exact h4 a
    · exact absurd b (by decide)
  · refine newLocalPort_ok_parsed_branch desc ip "" port protocol p
      (protocolCheck_passes hp) (familyCheck_passes (Or.inl rfl)) hip hP ?_
    rintro (⟨a, b⟩ | ⟨a, b⟩) <;> exact absurd b (by decide)

/-- Witness for C10: the IPv4-mapped literal of 1.2.3.4 with family tag 6
is rejected as a mismatch. -/
theorem newLocalPort_v4mapped_witness :
    NewLocalPort "d" "::ffff:1.2.3.4" "6" 80 "tcp"
      = Except.error (PortError.addressFamilyMismatch "::ffff:1.2.3.4" "6") :=
  (newLocalPort_v4mapped "d" "::ffff:1.2.3.4" 80 "tcp"
    [0, 0, 0, 0, 0, 0, 0, 0, 0, 0, 255, 255, 1, 2, 3, 4]
    (Or.inl rfl) (by decide) (by decide) (by decide) (by decide)
    (by decide) (by decide)).1

/-- A printable ASCII character other than quote and backslash is kept
verbatim by the %q quoting. -/
theorem goQuoteChar_plain (c : Char) (h1 : 0x20 ≤ c.toNat) (h2 : c.toNat ≤ 0x7E)
    (h3 : c ≠ '"') (h4 : c ≠ '\\') : goQuoteChar c = [c] := by
  have hq : ¬(c = '"' ∨ c = '\\') := by
    rintro (h | h)
    exacts [h3 h, h4 h]
  unfold goQuoteChar
  rw [if_neg hq, if_pos ⟨h1, h2⟩]

/-- Quoting a list of plain characters changes nothing. -/
theorem flatten_map_goQuoteChar (l : List Char)
    (h : ∀ c ∈ l, (0x20 ≤ c.toNat ∧ c.toNat ≤ 0x7E) ∧ c ≠ '"' ∧ c ≠ '\\') :
    (l.map goQuoteChar).flatten = l := by
  induction l with
  | nil => rfl
  | cons c t ih =>
    have hc := h c (List.mem_cons_self c t)
    rw [List.map_cons, List.flatten_cons,
      goQuoteChar_plain c hc.1.1 hc.1.2 hc.2.1 hc.2.2,
      ih (fun x hx => h x (List.mem_cons_of_mem c hx))]
    rfl

/-- On a string of plain printable characters, the %q quoting is exactly
wrapping in double quotes. -/
theorem goQuote_plain (s : String)
    (h : ∀ c ∈ s.data, (0x20 ≤ c.toNat ∧ c.toNat ≤ 0x7E) ∧ c ≠ '"' ∧ c ≠ '\\') :
    goQuote s = "\"" ++ s ++ "\"" := by
  obtain ⟨l⟩ := s
  apply String.ext
  show '"' :: (l.map goQuoteChar).flatten ++ ['"'] = _
  rw [flatten_map_goQuoteChar l h]
  rfl

/-- C7: rendering is deterministic and has the exact documented shape: the
description double-quoted, a space, and a parenthesized token of the form
address, colon, port, slash, protocol, family suffix, where an address
containing a colon (an IPv6 literal) is bracketed, an empty address
renders as a bare colon-port, and the family suffix is appended to the
protocol only when an explicit address family was set (the family tag is
the appended string, so the unset family appends nothing).  The
description clause is stated for descriptions of plain printable
characters, where %q quoting is exactly double-quoting.  The four example
inputs of the specification render bit-exactly. -/
theorem localPort_render_spec :
    (∀ lp : LocalPort,
        (∀ c ∈ lp.Description.data,
            (0x20 ≤ c.toNat ∧ c.toNat ≤ 0x7E) ∧ c ≠ '"' ∧ c ≠ '\\') →
        lp.render = "\"" ++ lp.Description ++ "\"" ++ " " ++ "("
          ++ (if lp.IP.data.contains ':' then "[" ++ lp.IP ++ "]" else lp.IP)
          ++ ":" ++ itoa lp.Port ++ "/" ++ lp.Protocol ++ lp.IPFamily ++ ")")
    ∧ LocalPort.render ⟨"IPv4 UDP", "1.2.3.4", "", 9999, "udp"⟩
        = "\"IPv4 UDP\" (1.2.3.4:9999/udp)"
    ∧ LocalPort.render ⟨"IPv6 TCP", "2001:db8::1", "", 80, "tcp"⟩
        = "\"IPv6 TCP\" ([2001:db8::1]:80/tcp)"
    ∧ LocalPort.render ⟨"IPv4 TCP, all addresses", "", "4", 1053, "tcp"⟩
        = "\"IPv4 TCP, all addresses\" (:1053/tcp4)"
    ∧ LocalPort.render ⟨"No ip family TCP, all addresses", "", "", 80, "tcp"⟩
        = "\"No ip family TCP, all addresses\" (:80/tcp)" := by
  refine ⟨?_, rfl, rfl, rfl, rfl⟩
  intro lp h
  obtain ⟨D, IP, fam, P, prot⟩ := lp
  simp only [LocalPort.render, joinHostPort]
  rw [goQuote_plain D h]
  by_cases hc : IP.data.contains ':'
  · simp only [if_pos hc]
    apply String.ext
    simp only [String.data_append, List.append_assoc]
    rfl
  · simp only [if_neg hc]
    apply String.ext
    simp only [String.data_append, List.append_assoc]
    rfl

/-- Witness for C7: the shape clause applied to a concrete descriptor with
a plain description and an IPv6 address evaluates to the exact rendered
string. -/
theorem localPort_render_spec_witness :
    LocalPort.render ⟨"x", "::1", "", 1, "udp"⟩ = "\"x\" ([::1]:1/udp)" :=
  (localPort_render_spec.1 ⟨"x", "::1", "", 1, "udp"⟩ (by decide)).trans (by rfl)
